import Mathlib

/-
Verification of the data-review table component: record filtering, CSV
flattening and export, field severity resolution, and the interaction
state (tooltip hover, detail modal, fetch lifecycle). The definitions
below are a shallow embedding of the component's source.
-/

namespace DataReview

/-- Severity of a validation finding, the two values the source type allows. -/
inductive Severity where
  | critical
  | warning
deriving DecidableEq, Repr

/-- The string a Severity value is in the source (the TS type is the union
of the two string literals). -/
def severityText : Severity → String
  | Severity.critical => "critical"
  | Severity.warning => "warning"

/-- interface ValidationError: message and severity. -/
structure ValidationError where
  message : String
  severity : Severity
deriving DecidableEq, Repr

/-- The optional per-field errors object of a Record: one optional
ValidationError per watched field (email, phone, zipcode, street). -/
structure RecordErrors where
  email : Option ValidationError := none
  phone : Option ValidationError := none
  zipcode : Option ValidationError := none
  street : Option ValidationError := none
deriving DecidableEq, Repr

/-- interface Record: id, name, email, optional street/city/zipcode/phone,
status, and the optional errors object. An absent optional property is
`none`. -/
structure Record where
  id : Nat
  name : String
  email : String
  street : Option String := none
  city : Option String := none
  zipcode : Option String := none
  phone : Option String := none
  status : String
  errors : Option RecordErrors := none
deriving DecidableEq, Repr

/-- Does the first char list start the second (char-by-char equality)? -/
def startsWithList : List Char → List Char → Bool
  | [], _ => true
  | _ :: _, [] => false
  | a :: as, b :: bs => a == b && startsWithList as bs

/-- Does the first char list occur contiguously inside the second? -/
def hasSubList (q : List Char) : List Char → Bool
  | [] => q.isEmpty
  | b :: bs => startsWithList q (b :: bs) || hasSubList q bs

/-- JavaScript s.includes(q): q occurs as a contiguous substring of s. -/
def jsIncludes (s q : String) : Bool := hasSubList q.data s.data

/-- JavaScript s.toLowerCase(): char-wise lowering (the record data and
queries are ASCII, where JS and char-wise lowering agree). -/
def jsToLower (s : String) : String := String.mk (s.data.map Char.toLower)

/-- The values contributed to Object.values by one optional string property:
present properties contribute their value, absent ones contribute nothing. -/
def optionValues : Option String → List String
  | some s => [s]
  | none => []

/-- The stringified scalar own-property values of a record, in declaration
order: String(id), name, email, the optional street/city/zipcode/phone when
present, and status. -/
def scalarValues (record : Record) : List String :=
  [toString record.id, record.name, record.email]
    ++ optionValues record.street ++ optionValues record.city
    ++ optionValues record.zipcode ++ optionValues record.phone
    ++ [record.status]

/-- String(v) over Object.values(record): the scalar values followed by the
stringification of the errors object when present — a plain object
stringifies to "[object Object]" in JavaScript. -/
def objectValues (record : Record) : List String :=
  scalarValues record
    ++ (match record.errors with
        | some _ => ["[object Object]"]
        | none => [])

/-- The filter predicate of filteredRecords: some stringified own-property
value of the record contains the query, case-insensitively. -/
def jsMatches (searchQuery : String) (record : Record) : Bool :=
  (objectValues record).any fun value =>
    jsIncludes (jsToLower value) (jsToLower searchQuery)

/-- filteredRecords: records.filter(record =>
Object.values(record).some(value =>
String(value).toLowerCase().includes(searchQuery.toLowerCase()))). -/
def filteredRecords (records : List Record) (searchQuery : String) : List Record :=
  records.filter fun record =>
    (objectValues record).any fun value =>
      jsIncludes (jsToLower value) (jsToLower searchQuery)

/-- The filter predicate as the specification words it: at least one of the
record's own SCALAR attribute values (id, name, email, street, city,
zipcode, phone, status — not the nested Finding data) contains the query
case-insensitively. Written from the spec, for comparison with the code's
predicate. -/
def scalarMatchesSpec (searchQuery : String) (record : Record) : Bool :=
  (scalarValues record).any fun value =>
    jsIncludes (jsToLower value) (jsToLower searchQuery)

/-- The four watched fields that may carry a Finding. -/
inductive WatchedField where
  | email
  | phone
  | zipcode
  | street
deriving DecidableEq, Repr

/-- record.errors?.FIELD — the optional Finding of a watched field. -/
def fieldFinding (record : Record) : WatchedField → Option ValidationError
  | WatchedField.email => record.errors.bind RecordErrors.email
  | WatchedField.phone => record.errors.bind RecordErrors.phone
  | WatchedField.zipcode => record.errors.bind RecordErrors.zipcode
  | WatchedField.street => record.errors.bind RecordErrors.street

/-- The flat row shape flattenRecord returns, fields in the source's
insertion order. -/
structure FlatRecord where
  id : Nat
  name : String
  email : String
  street : String
  city : String
  zipcode : String
  phone : String
  status : String
  email_error : String
  email_severity : String
  phone_error : String
  phone_severity : String
  zipcode_error : String
  zipcode_severity : String
  street_error : String
  street_severity : String
deriving DecidableEq, Repr

/-- flattenRecord: each optional scalar is `record.FIELD || ''` and each
error column is `record.errors?.FIELD?.message || ''` (resp. severity);
`x || ''` on an optional string is `Option.getD ""`. -/
def flattenRecord (record : Record) : FlatRecord where
  id := record.id
  name := record.name
  email := record.email
  street := record.street.getD ""
  city := record.city.getD ""
  zipcode := record.zipcode.getD ""
  phone := record.phone.getD ""
  status := record.status
  email_error := ((record.errors.bind RecordErrors.email).map ValidationError.message).getD ""
  email_severity := ((record.errors.bind RecordErrors.email).map fun e => severityText e.severity).getD ""
  phone_error := ((record.errors.bind RecordErrors.phone).map ValidationError.message).getD ""
  phone_severity := ((record.errors.bind RecordErrors.phone).map fun e => severityText e.severity).getD ""
  zipcode_error := ((record.errors.bind RecordErrors.zipcode).map ValidationError.message).getD ""
  zipcode_severity := ((record.errors.bind RecordErrors.zipcode).map fun e => severityText e.severity).getD ""
  street_error := ((record.errors.bind RecordErrors.street).map ValidationError.message).getD ""
  street_severity := ((record.errors.bind RecordErrors.street).map fun e => severityText e.severity).getD ""

/-- The key list of a FlatRecord in insertion order — what PapaParse takes
as the field (header) list from the first row object. -/
def csvColumns : List String :=
  ["id", "name", "email", "street", "city", "zipcode", "phone", "status",
   "email_error", "email_severity", "phone_error", "phone_severity",
   "zipcode_error", "zipcode_severity", "street_error", "street_severity"]

/-- The serialized cell values of a flat row in field order; the numeric id
is stringified by the serializer. -/
def rowCells (row : FlatRecord) : List String :=
  [toString row.id, row.name, row.email, row.street, row.city, row.zipcode,
   row.phone, row.status, row.email_error, row.email_severity,
   row.phone_error, row.phone_severity, row.zipcode_error,
   row.zipcode_severity, row.street_error, row.street_severity]

/-- PapaParse quotes a cell that contains the quote char, the delimiter, a
CR or LF, or has a leading or trailing space. -/
def papaNeedsQuotes (s : String) : Bool :=
  (s.data.any fun c => c == '"' || c == ',' || c == '\r' || c == '\n')
    || (match s.data with
        | [] => false
        | c :: _ => c == ' ')
    || (match s.data.getLast? with
        | some c => c == ' '
        | none => false)

/-- Doubling of every quote char inside a quoted cell. -/
def escapeQuoteChars : List Char → List Char
  | [] => []
  | c :: cs =>
    if c == '"' then '"' :: '"' :: escapeQuoteChars cs
    else c :: escapeQuoteChars cs

/-- A serialized CSV cell: quoted with inner quotes doubled when needed. -/
def papaEscapeCell (s : String) : String :=
  if papaNeedsQuotes s then String.mk ('"' :: (escapeQuoteChars s.data ++ ['"']))
  else s

/-- One serialized CSV line: cells joined by the comma delimiter. -/
def papaLine (cells : List String) : String :=
  String.intercalate "," (cells.map papaEscapeCell)

/-- PapaParse's default newline between serialized lines. -/
def crlf : String := "\r\n"

/-- Model of Papa.unparse on an array of uniform FlatRecord objects with
default config: an empty array serializes to the empty string (no fields
can be inferred, no header is emitted); a non-empty array serializes to the
header line (the first row's keys) followed by one line per row, joined by
CRLF. -/
def papaUnparse (rows : List FlatRecord) : String :=
  match rows with
  | [] => ""
  | _ :: _ =>
    String.intercalate crlf
      (papaLine csvColumns :: rows.map fun row => papaLine (rowCells row))

/-- The fixed download file name the export uses. -/
def exportFileName : String := "data_export_with_errors.csv"

/-- exportToCSV's produced document: Papa.unparse of the flattened
currently-filtered records. -/
def exportToCSV (records : List Record) (searchQuery : String) : String :=
  papaUnparse ((filteredRecords records searchQuery).map flattenRecord)

/-- The class string getFieldColor returns for a critical severity. -/
def criticalFieldColor : String := "bg-red-500/20 hover:bg-red-500/30 text-red-900"

/-- The class string getFieldColor returns for a warning severity. -/
def warningFieldColor : String := "bg-yellow-500/20 hover:bg-yellow-500/30 text-yellow-900"

/-- The class string getFieldColor returns when no Finding is present. -/
def noFindingFieldColor : String := "bg-green-500/20 hover:bg-green-500/30 text-green-900"

/-- getFieldColor: the if-chain of the source on the optional severity. -/
def getFieldColor (severity : Option Severity) : String :=
  if severity = some Severity.critical then
    "bg-red-500/20 hover:bg-red-500/30 text-red-900"
  else if severity = some Severity.warning then
    "bg-yellow-500/20 hover:bg-yellow-500/30 text-yellow-900"
  else
    "bg-green-500/20 hover:bg-green-500/30 text-green-900"

/-- closeModal: clears modalData exactly when the click target's id is
"modal-background". -/
def closeModal (targetId : String) (modalData : Option Record) : Option Record :=
  if targetId = "modal-background" then none else modalData

/-- A click target inside the rendered modal tree: the background scrim
div, or any interior content element. -/
inductive ModalTarget where
  | scrim
  | content
deriving DecidableEq, Repr

/-- The id the DOM reports for a click target of renderModal's tree: the
outer scrim div carries id "modal-background"; the interior content
elements carry no id attribute, which the DOM reports as "". -/
def modalTargetId : ModalTarget → String
  | ModalTarget.scrim => "modal-background"
  | ModalTarget.content => ""

/-- The hover slice of the component state: hoveredError and
tooltipPosition, both initially null. -/
structure HoverState where
  hoveredError : Option String
  tooltipPosition : Option (Int × Int)
deriving DecidableEq, Repr

/-- Both hover states start as null. -/
def initHoverState : HoverState :=
  { hoveredError := none, tooltipPosition := none }

/-- handleMouseMove: sets the hovered message and records the pointer
position. -/
def handleMouseMove (pos : Int × Int) (errorMessage : String)
    (_s : HoverState) : HoverState :=
  { hoveredError := some errorMessage, tooltipPosition := some pos }

/-- handleMouseLeave: clears both hover states. -/
def handleMouseLeave (_s : HoverState) : HoverState :=
  { hoveredError := none, tooltipPosition := none }

/-- The hover-affecting events: a pointer move over a watched cell, or the
pointer leaving it. -/
inductive HoverEvent where
  | mouseMove (pos : Int × Int) (errorMessage : String)
  | mouseLeave
deriving DecidableEq, Repr

/-- One hover event applied to the hover state. -/
def hoverStep (s : HoverState) : HoverEvent → HoverState
  | HoverEvent.mouseMove pos msg => handleMouseMove pos msg s
  | HoverEvent.mouseLeave => handleMouseLeave s

/-- The synchronization invariant: the hovered message is present exactly
when the pointer position is. -/
def hoverInvariant (s : HoverState) : Prop :=
  s.hoveredError.isSome ↔ s.tooltipPosition.isSome

/-- The whole component state: the record store (records, loading, error),
the query, and the interaction state (modalData, hoveredError,
tooltipPosition). -/
structure UIState where
  records : List Record
  loading : Bool
  error : Option String
  modalData : Option Record
  searchQuery : String
  hoveredError : Option String
  tooltipPosition : Option (Int × Int)
deriving DecidableEq, Repr

/-- The useState initial values of the component. -/
def initState : UIState :=
  { records := [], loading := true, error := none, modalData := none,
    searchQuery := "", hoveredError := none, tooltipPosition := none }

/-- The one fixed user-facing fetch failure message. -/
def fetchErrorMessage : String := "Error fetching data. Please try again later."

/-- The outcome of the single startup fetch: a success payload of records,
or a failure carrying the underlying error (of any shape, kept abstract as
its diagnostic rendering). -/
inductive FetchOutcome where
  | success (records : List Record)
  | failure (err : String)

/-- fetchData's try/catch/finally applied to the state, paired with the
console log output it emits: success stores the records and resets error;
failure stores the one fixed message and logs the underlying error;
both clear loading. -/
def applyFetchOutcome (s : UIState) : FetchOutcome → UIState × List String
  | FetchOutcome.success rs =>
    ({ s with records := rs, error := none, loading := false }, [])
  | FetchOutcome.failure err =>
    ({ s with error := some fetchErrorMessage, loading := false }, [err])

/-- JavaScript truthiness of a string-or-null value: null and the empty
string are falsy, every other string is truthy. -/
def jsTruthyStr : Option String → Bool
  | some s => decide (s ≠ "")
  | none => false

/-- What the component renders at top level. -/
inductive Rendered where
  | loadingView
  | errorView (msg : String)
  | tableView (visible : List Record)
deriving DecidableEq, Repr

/-- The early-return chain of the component body: the loading view while
loading, the error view when the error state is truthy, otherwise the
table over the filtered records. -/
def render (s : UIState) : Rendered :=
  if s.loading then Rendered.loadingView
  else if jsTruthyStr s.error then Rendered.errorView (s.error.getD "")
  else Rendered.tableView (filteredRecords s.records s.searchQuery)

/-- The user events the rendered component wires to state updates. -/
inductive UIEvent where
  | setQuery (q : String)
  | openModal (record : Record)
  | modalClick (targetId : String)
  | closeButtonClick
  | cellMouseMove (pos : Int × Int) (errorMessage : String)
  | cellMouseLeave
  | exportClick

/-- One user event applied to the component state: the search input sets
the query, the View Errors button opens the modal, a click inside the open
modal goes through closeModal, the Close button clears the modal, cell
hover events set or clear the hover pair, and the export button leaves the
state unchanged (it only produces the download). -/
def uiStep (s : UIState) : UIEvent → UIState
  | UIEvent.setQuery q => { s with searchQuery := q }
  | UIEvent.openModal r => { s with modalData := some r }
  | UIEvent.modalClick tid => { s with modalData := closeModal tid s.modalData }
  | UIEvent.closeButtonClick => { s with modalData := none }
  | UIEvent.cellMouseMove pos msg =>
    { s with hoveredError := some msg, tooltipPosition := some pos }
  | UIEvent.cellMouseLeave =>
    { s with hoveredError := none, tooltipPosition := none }
  | UIEvent.exportClick => s

/-- Triggering exportToCSV from a state: the state it leaves behind, the
document it serializes, and the download file name. The source handler
reads filteredRecords and performs the blob download; it calls no state
setter. -/
def exportToCSVAction (s : UIState) : UIState × String × String :=
  (s, exportToCSV s.records s.searchQuery, exportFileName)

/-- The message a watched cell passes to handleMouseMove:
record.errors?.FIELD?.message || "" — the empty string when the field has
no Finding. -/
def cellHoverMessage (record : Record) (f : WatchedField) : String :=
  ((fieldFinding record f).map ValidationError.message).getD ""

/-- The onMouseMove handler of a watched cell applied to the state. -/
def handleCellMouseMove (s : UIState) (record : Record) (f : WatchedField)
    (pos : Int × Int) : UIState :=
  { s with
      hoveredError := some (cellHoverMessage record f),
      tooltipPosition := some pos }

/-- The tooltip render guard: hoveredError && tooltipPosition — the
tooltip element is emitted exactly when the hovered message is a truthy
(non-empty) string and the position is set. -/
def tooltipVisible (s : UIState) : Bool :=
  jsTruthyStr s.hoveredError && s.tooltipPosition.isSome

/-- A sample Finding for concrete evaluations. -/
def sampleFinding : ValidationError :=
  { message := "bad format", severity := Severity.critical }

/-- A sample record carrying an email Finding and no optional scalars. -/
def sampleRecord1 : Record :=
  { id := 1, name := "Ann", email := "a@x.com", status := "active",
    errors := some { email := some sampleFinding } }

/-- A sample record with no Findings and no optional scalars. -/
def sampleRecord2 : Record :=
  { id := 2, name := "Bob", email := "b@y.com", status := "pending" }

/-- The empty pattern occurs in every char list. -/
theorem hasSubList_nil_left (l : List Char) : hasSubList [] l = true := by
  cases l with
  | nil => rfl
  | cons c cs => simp [hasSubList, startsWithList]

/-- Every string includes the empty string. -/
theorem jsIncludes_empty (s : String) : jsIncludes s "" = true :=
  hasSubList_nil_left s.data

/-- Lowercasing the empty string gives the empty string. -/
theorem jsToLower_empty : jsToLower "" = "" := rfl

/-- Claim C4: filtering with the empty query returns the record list
itself, order preserved — every record has a nonempty value list and every
value contains the empty query. -/
theorem filter_empty_query_is_identity (records : List Record) :
    filteredRecords records "" = records := by
  unfold filteredRecords
  apply List.filter_eq_self.mpr
  intro r _
  apply List.any_eq_true.mpr
  refine ⟨toString r.id, ?_, ?_⟩
  · simp [objectValues, scalarValues]
  · rw [jsToLower_empty]
    exact jsIncludes_empty _

/-- The fixed fetch failure message is a truthy string. -/
theorem fetchErrorMessage_truthy : jsTruthyStr (some fetchErrorMessage) = true := by
  decide

/-- A state with loading cleared and the fixed fetch error stored renders
the error view. -/
theorem render_error_state (s : UIState) (h1 : s.loading = false)
    (h2 : s.error = some fetchErrorMessage) :
    render s = Rendered.errorView fetchErrorMessage := by
  simp [render, h1, h2, fetchErrorMessage_truthy]

/-- No user event touches the record store slice of the state. -/
theorem uiStep_preserves_store (s : UIState) (e : UIEvent) :
    (uiStep s e).error = s.error ∧ (uiStep s e).loading = s.loading
      ∧ (uiStep s e).records = s.records := by
  cases e <;> simp [uiStep]

/-- No user event sequence touches the record store slice of the state. -/
theorem foldl_uiStep_preserves_store (evs : List UIEvent) (s : UIState) :
    (evs.foldl uiStep s).error = s.error
      ∧ (evs.foldl uiStep s).loading = s.loading
      ∧ (evs.foldl uiStep s).records = s.records := by
  induction evs generalizing s with
  | nil => exact ⟨rfl, rfl, rfl⟩
  | cons e es ih =>
    rw [List.foldl_cons]
    have h := uiStep_preserves_store s e
    have h2 := ih (uiStep s e)
    exact ⟨h2.1.trans h.1, h2.2.1.trans h.2.1, h2.2.2.trans h.2.2⟩

/-- Claim C1: the export pipeline serializes exactly the currently
filtered records — one flat row per visible record and none for any other
record — with the fixed 16-column set in order; each absent optional
scalar and each error/severity column of an absent Finding is the empty
string, and a present Finding contributes its message and severity. -/
theorem export_one_row_per_visible_record (records : List Record)
    (searchQuery : String) (r : Record) :
    exportToCSV records searchQuery
        = papaUnparse ((filteredRecords records searchQuery).map flattenRecord)
    ∧ ((filteredRecords records searchQuery).map flattenRecord).length
        = (filteredRecords records searchQuery).length
    ∧ rowCells (flattenRecord r)
        = [toString r.id, r.name, r.email, r.street.getD "", r.city.getD "",
           r.zipcode.getD "", r.phone.getD "", r.status,
           ((fieldFinding r WatchedField.email).map ValidationError.message).getD "",
           ((fieldFinding r WatchedField.email).map fun e => severityText e.severity).getD "",
           ((fieldFinding r WatchedField.phone).map ValidationError.message).getD "",
           ((fieldFinding r WatchedField.phone).map fun e => severityText e.severity).getD "",
           ((fieldFinding r WatchedField.zipcode).map ValidationError.message).getD "",
           ((fieldFinding r WatchedField.zipcode).map fun e => severityText e.severity).getD "",
           ((fieldFinding r WatchedField.street).map ValidationError.message).getD "",
           ((fieldFinding r WatchedField.street).map fun e => severityText e.severity).getD ""]
    ∧ (filteredRecords records searchQuery ≠ [] →
        exportToCSV records searchQuery
          = String.intercalate crlf
              (papaLine csvColumns ::
                (filteredRecords records searchQuery).map
                  fun v => papaLine (rowCells (flattenRecord v)))) := by
  refine ⟨rfl, by simp, rfl, ?_⟩
  intro h
  cases hv : filteredRecords records searchQuery with
  | nil => exact absurd hv h
  | cons a l =>
    simp [exportToCSV, papaUnparse, hv, Function.comp_def]

/-- Witness for C1: a nonempty visible set whose export is the header line
followed by one line per visible record. -/
theorem export_one_row_per_visible_record_witness :
    filteredRecords [sampleRecord1] "" ≠ []
    ∧ exportToCSV [sampleRecord1] ""
        = String.intercalate crlf
            (papaLine csvColumns ::
              (filteredRecords [sampleRecord1] "").map
                fun v => papaLine (rowCells (flattenRecord v))) :=
  ⟨by decide,
   (export_one_row_per_visible_record [sampleRecord1] "" sampleRecord1).2.2.2
     (by decide)⟩

/-- Counterexample to claim C2 as stated: the query "[object" returns the
sample record although none of its scalar attribute values contains that
query — the match comes from the stringified nested errors object. -/
theorem filter_scalar_only_counterexample :
    filteredRecords [sampleRecord1] "[object" = [sampleRecord1]
    ∧ scalarMatchesSpec "[object" sampleRecord1 = false :=
  ⟨by decide, by decide⟩

/-- Claim C2 (amended): the filter returns an order-preserving sublist
containing exactly the records with at least one stringified own-property
value — the scalar attributes, plus "[object Object]" for a present errors
object — containing the query case-insensitively; in particular every
record matching on a scalar attribute is returned. -/
theorem filter_characterization (records : List Record) (searchQuery : String) :
    List.Sublist (filteredRecords records searchQuery) records
    ∧ (∀ r : Record, r ∈ filteredRecords records searchQuery
        ↔ r ∈ records ∧ jsMatches searchQuery r = true)
    ∧ (∀ r : Record, r ∈ records → scalarMatchesSpec searchQuery r = true
        → r ∈ filteredRecords records searchQuery) := by
  refine ⟨List.filter_sublist _, ?_, ?_⟩
  · intro r
    simp [filteredRecords, jsMatches, List.mem_filter]
  · intro r hr hs
    rw [scalarMatchesSpec] at hs
    rcases List.any_eq_true.mp hs with ⟨v, hv, hpv⟩
    simp only [filteredRecords, List.mem_filter]
    refine ⟨hr, List.any_eq_true.mpr ⟨v, ?_, hpv⟩⟩
    exact List.mem_append.mpr (Or.inl hv)

/-- Witness for C2 (amended): a record matching on a scalar attribute is
returned by the filter. -/
theorem filter_characterization_witness :
    sampleRecord1 ∈ filteredRecords [sampleRecord1] "ann" :=
  (filter_characterization [sampleRecord1] "ann").2.2 sampleRecord1
    (by decide) (by decide)

/-- Counterexample to claim C3 as stated: exporting an empty visible set
produces the empty document, not a one-line header document — the
serializer yields "" for an empty row array, while the header line is the
nonempty fixed column line. -/
theorem empty_export_counterexample :
    exportToCSV ([] : List Record) "" = ""
    ∧ papaLine csvColumns
        = "id,name,email,street,city,zipcode,phone,status,email_error,email_severity,phone_error,phone_severity,zipcode_error,zipcode_severity,street_error,street_severity"
    ∧ exportToCSV ([] : List Record) "" ≠ papaLine csvColumns :=
  ⟨rfl, by decide, by decide⟩

/-- Claim C3 (amended): when the visible sequence is empty the export
still succeeds (no error condition) and produces the empty document,
without a header line. -/
theorem empty_visible_export_empty_document (records : List Record)
    (searchQuery : String) (h : filteredRecords records searchQuery = []) :
    exportToCSV records searchQuery = "" := by
  simp [exportToCSV, h, papaUnparse]

/-- Witness for C3 (amended): a query matching nothing exports the empty
document. -/
theorem empty_visible_export_empty_document_witness :
    exportToCSV [sampleRecord1] "zzz" = "" :=
  empty_visible_export_empty_document [sampleRecord1] "zzz" (by decide)

/-- Claim C5: the field severity resolver maps a critical Finding to the
critical tier, a warning Finding to the warning tier, and an absent
Finding to the none tier, and the three tiers are pairwise distinct. -/
theorem severity_resolver_tiers (m : String) (s : Severity) :
    getFieldColor (Option.map ValidationError.severity
        (some { message := m, severity := s }))
      = (match s with
         | Severity.critical => criticalFieldColor
         | Severity.warning => warningFieldColor)
    ∧ getFieldColor (Option.map ValidationError.severity
        (none : Option ValidationError)) = noFindingFieldColor
    ∧ criticalFieldColor ≠ warningFieldColor
    ∧ criticalFieldColor ≠ noFindingFieldColor
    ∧ warningFieldColor ≠ noFindingFieldColor := by
  cases s <;>
    exact ⟨rfl, by decide, by decide, by decide, by decide⟩

/-- Claim C6: after any sequence of hover and unhover operations from the
initial state, the hovered message and the pointer position are both
present or both absent — never exactly one. -/
theorem hover_state_synchronized (evs : List HoverEvent) :
    hoverInvariant (evs.foldl hoverStep initHoverState) := by
  have hstep : ∀ (s : HoverState) (e : HoverEvent),
      hoverInvariant (hoverStep s e) := by
    intro s e
    cases e <;>
      simp [hoverStep, handleMouseMove, handleMouseLeave, hoverInvariant]
  have hall : ∀ (l : List HoverEvent) (s : HoverState),
      hoverInvariant s → hoverInvariant (l.foldl hoverStep s) := by
    intro l
    induction l with
    | nil => intro s hs; simpa using hs
    | cons e es ih =>
      intro s _
      rw [List.foldl_cons]
      exact ih (hoverStep s e) (hstep s e)
  exact hall evs initHoverState Iff.rfl

/-- Claim C7: while a detail view is open, a click whose target is the
background scrim (the element with id modal-background) clears it, while a
click whose target is interior content (which carries no id) leaves the
open detail view unchanged. -/
theorem modal_scrim_click_closes (r : Record) (m : Option Record) :
    closeModal (modalTargetId ModalTarget.scrim) (some r) = none
    ∧ closeModal (modalTargetId ModalTarget.content) (some r) = some r
    ∧ closeModal (modalTargetId ModalTarget.content) m = m := by
  refine ⟨?_, ?_, ?_⟩ <;> simp [closeModal, modalTargetId]

/-- Claim C8: triggering the export leaves every piece of component state
unchanged — the record store, the query and the interaction state after
the export equal those before — while producing the serialized document
and the fixed download file name. -/
theorem export_leaves_state_unchanged (s : UIState) :
    (exportToCSVAction s).1 = s
    ∧ (exportToCSVAction s).1.records = s.records
    ∧ (exportToCSVAction s).1.loading = s.loading
    ∧ (exportToCSVAction s).1.error = s.error
    ∧ (exportToCSVAction s).1.modalData = s.modalData
    ∧ (exportToCSVAction s).1.searchQuery = s.searchQuery
    ∧ (exportToCSVAction s).1.hoveredError = s.hoveredError
    ∧ (exportToCSVAction s).1.tooltipPosition = s.tooltipPosition
    ∧ (exportToCSVAction s).2.1 = exportToCSV s.records s.searchQuery
    ∧ (exportToCSVAction s).2.2 = exportFileName :=
  ⟨rfl, rfl, rfl, rfl, rfl, rfl, rfl, rfl, rfl, rfl⟩

/-- Claim C9: every fetch failure is handled uniformly — the one fixed
user-facing message is stored independently of the underlying error, the
underlying error goes only to the diagnostic log, the stored records are
untouched, rendering halts at the error view, and no subsequent user event
sequence retries the fetch or restores data-dependent rendering. -/
theorem fetch_failure_uniform (err err2 : String) (evs : List UIEvent) :
    (applyFetchOutcome initState (FetchOutcome.failure err)).1.error
        = some fetchErrorMessage
    ∧ (applyFetchOutcome initState (FetchOutcome.failure err)).1.records
        = initState.records
    ∧ (applyFetchOutcome initState (FetchOutcome.failure err)).2 = [err]
    ∧ (applyFetchOutcome initState (FetchOutcome.failure err)).1
        = (applyFetchOutcome initState (FetchOutcome.failure err2)).1
    ∧ render (applyFetchOutcome initState (FetchOutcome.failure err)).1
        = Rendered.errorView fetchErrorMessage
    ∧ render (evs.foldl uiStep
          (applyFetchOutcome initState (FetchOutcome.failure err)).1)
        = Rendered.errorView fetchErrorMessage := by
  refine ⟨rfl, rfl, rfl, rfl, ?_, ?_⟩
  · exact render_error_state _ rfl rfl
  · have h := foldl_uiStep_preserves_store evs
      (applyFetchOutcome initState (FetchOutcome.failure err)).1
    exact render_error_state _ (h.2.1.trans rfl) (h.1.trans rfl)

/-- Claim C10: hovering a watched cell always runs the hover operation,
also when the field has no Finding — then the stored message is the empty
string while the pointer position is still recorded — and the tooltip is
rendered exactly when the stored hover message is a non-empty string. -/
theorem hover_without_finding (s : UIState) (record : Record)
    (f : WatchedField) (pos : Int × Int) :
    (handleCellMouseMove s record f pos).hoveredError
        = some (cellHoverMessage record f)
    ∧ (handleCellMouseMove s record f pos).tooltipPosition = some pos
    ∧ (fieldFinding record f = none → cellHoverMessage record f = "")
    ∧ (tooltipVisible (handleCellMouseMove s record f pos) = true
        ↔ cellHoverMessage record f ≠ "") := by
  refine ⟨rfl, rfl, ?_, ?_⟩
  · intro h
    simp [cellHoverMessage, h]
  · simp [tooltipVisible, handleCellMouseMove, jsTruthyStr]

/-- Witness for C10: hovering a field with no Finding stores the empty
message. -/
theorem hover_without_finding_witness :
    fieldFinding sampleRecord2 WatchedField.email = none
    ∧ cellHoverMessage sampleRecord2 WatchedField.email = "" :=
  ⟨by decide,
   (hover_without_finding initState sampleRecord2 WatchedField.email
       ((0 : Int), (0 : Int))).2.2.1 (by decide)⟩

end DataReview
